import Mathlib

/-!
Shallow embedding of `src/App.js` (mqttStatusApp): a React Native screen that
connects to an MQTT broker over WebSocket, shows incoming messages in a log,
and raises a local notification when a parsed JSON payload has
`status === 'offline'`.

The UI state hooks (`ip`, `topic`, `connected`, `statusLog`, `clientRef`,
`permissionGranted`) become fields of `AppState`.  Each event handler of the
source becomes a function `AppState → AppState × List Effect`, where `Effect`
records the externally visible calls (modal alerts, scheduled notifications,
transport connect / subscribe requests, `client.end()`).

`JSON.parse` is a platform primitive, not code of this repository; the message
handler therefore takes the parse result as an `Option Json` argument
(`none` models a thrown parse error, caught by the handler's `try/catch`).
JavaScript property access, truthiness and string conversion on parsed JSON
values are embedded below (`Json.getProp`, `Json.truthy`, `Json.toJSString`).
-/

/-- A JSON value as produced by `JSON.parse` (numbers restricted to integers;
no claim depends on fractional numbers). -/
inductive Json where
  | null
  | bool (b : Bool)
  | num (n : Int)
  | str (s : String)
  | arr (elems : List Json)
  | obj (fields : List (String × Json))

/-- JavaScript truthiness of a parsed JSON value (`data.stationId || ...`):
`null`, `false`, `0` and `""` are falsy; arrays and objects are truthy. -/
def Json.truthy : Json → Bool
  | .null => false
  | .bool b => b
  | .num n => n != 0
  | .str s => s != ""
  | .arr _ => true
  | .obj _ => true

mutual

/-- JavaScript `String(v)` on a parsed JSON value, as used by template-literal
interpolation: `null ↦ "null"`, numbers in decimal, arrays joined with commas
(`null` elements becoming the empty string), objects to `"[object Object]"`. -/
def Json.toJSString : Json → String
  | .null => "null"
  | .bool b => cond b "true" "false"
  | .num n => toString n
  | .str s => s
  | .arr elems => String.intercalate "," (jsArrayElemStrings elems)
  | .obj _ => "[object Object]"

/-- Element-wise string conversion inside `Array.prototype.toString`:
a `null` element contributes the empty string. -/
def jsArrayElemStrings : List Json → List String
  | [] => []
  | Json.null :: rest => "" :: jsArrayElemStrings rest
  | x :: rest => Json.toJSString x :: jsArrayElemStrings rest

end

/-- JavaScript property access `data.k` on a `JSON.parse` result:
on `null` it throws a `TypeError` (modelled as `none`); on an object it yields
the field's value or `undefined` (`some none`) when absent; on any other value
(string, number, boolean, array) it yields `undefined` for the keys used here. -/
def Json.getProp : Json → String → Option (Option Json)
  | .null, _ => none
  | .obj fields, k => some (fields.lookup k)
  | _, _ => some none

/-- The transport client created by `mqtt.connect`; it records the values of
`brokerUrl` and `topic` captured by the event-handler closures registered in
`connectToMQTT` (lines 57-99 of `src/App.js`). -/
structure MqttClient where
  brokerUrl : String
  topic : String
deriving Repr, DecidableEq

/-- The component state of `App` (lines 15-20 of `src/App.js`):
`useState` hooks plus the `useRef` transport handle. -/
structure AppState where
  ip : String
  topic : String
  connected : Bool
  statusLog : List String
  clientRef : Option MqttClient
  permissionGranted : Bool
deriving Repr, DecidableEq

/-- The initial hook values: `ip = ''`, `topic = 'status'`, `connected = false`,
`statusLog = []`, `clientRef = null` (lines 15-20). -/
def initialState : AppState :=
  { ip := "", topic := "status", connected := false, statusLog := [],
    clientRef := none, permissionGranted := false }

/-- An externally visible call made by a handler. -/
inductive Effect where
  | alertModal (title message : String)
  | scheduleNotification (title body : String)
  | transportConnect (url : String)
  | subscribeRequest (topic : String)
  | endClient
deriving Repr, DecidableEq

/-- Source function `log(message)` (lines 32-34): appends one entry to `statusLog`. -/
def log (message : String) (s : AppState) : AppState :=
  { s with statusLog := s.statusLog ++ [message] }

/-- Source function `sendLocalNotification(message)` (lines 36-49): without permission, a modal
`Alert.alert('Notification', message)`; with permission, a scheduled
notification titled `'🚨 Device Offline'` with the message as body. -/
def sendLocalNotification (s : AppState) (message : String) : List Effect :=
  if s.permissionGranted then
    [Effect.scheduleNotification "🚨 Device Offline" message]
  else
    [Effect.alertModal "Notification" message]

/-- The broker URL built from the host field (line 57):
`` `ws://${ip}:9001/mqtt` ``. -/
def brokerUrlFor (ip : String) : String := s!"ws://{ip}:9001/mqtt"

/-- Source function `connectToMQTT` (lines 51-99): with an empty `ip` or `topic` it only shows
the error modal; otherwise it builds the broker URL, creates the client
(storing it in `clientRef`) and initiates the transport connection.  The
created client captures the current `brokerUrl` and `topic` for its
callbacks. -/
def connectToMQTT (s : AppState) : AppState × List Effect :=
  if s.ip = "" || s.topic = "" then
    (s, [Effect.alertModal "Error" "Please enter both IP address and topic"])
  else
    let brokerUrl := brokerUrlFor s.ip
    ({ s with clientRef := some { brokerUrl := brokerUrl, topic := s.topic } },
     [Effect.transportConnect brokerUrl])

/-- The `client.on('connect')` callback (lines 62-73): sets `connected`, logs
the connection line, and issues a subscribe request for the captured topic. -/
def onConnect (c : MqttClient) (s : AppState) : AppState × List Effect :=
  let url := c.brokerUrl
  (log s!"✅ Connected to {url}" { s with connected := true },
   [Effect.subscribeRequest c.topic])

/-- The `client.subscribe` result callback (lines 66-72): logs success with the
captured topic, or the failure message. -/
def onSubscribeResult (c : MqttClient) (err : Option String) (s : AppState) :
    AppState :=
  match err with
  | none =>
    let t := c.topic
    log s!"📡 Subscribed to \"{t}\"" s
  | some errMessage => log s!"❌ Subscription failed: {errMessage}" s

/-- Source expression `data.stationId || 'Unknown Station'` followed by template-literal
interpolation (line 82): an absent (`undefined`) or falsy `stationId` yields
the default; a truthy value is converted with JavaScript `String()`. -/
def resolveStationId : Option Json → String
  | some v => if v.truthy then v.toJSString else "Unknown Station"
  | none => "Unknown Station"

/-- The body of the `try` block (lines 80-85), after a successful parse:
`none` models a thrown exception (property access on `null`).  On
`data.status === 'offline'` it calls `sendLocalNotification` with the offline
body and logs the offline line; any other status does nothing further. -/
def tryBody (s : AppState) (data : Json) : Option (AppState × List Effect) :=
  match data.getProp "status" with
  | none => none
  | some statusVal =>
    match statusVal with
    | some (Json.str sv) =>
      if sv = "offline" then
        match data.getProp "stationId" with
        | none => none
        | some stationVal =>
          let stationId := resolveStationId stationVal
          some (log s!"🚨 \"{stationId}\" is offline" s,
                sendLocalNotification s s!"Device \"{stationId}\" is offline")
      else some (s, [])
    | _ => some (s, [])

/-- The `client.on('message')` callback (lines 75-89).  `parsed` is the result
of `JSON.parse msg` (`none` when the parse throws).  The raw message is logged
unconditionally; any exception in the `try` block (parse failure, or property
access on `null`) is caught and logged as an invalid-format entry. -/
def handleIncomingMessage (msgTopic msg : String) (parsed : Option Json)
    (s : AppState) : AppState × List Effect :=
  let s1 := log s!"📩 {msgTopic}: {msg}" s
  match parsed with
  | none => (log s!"⚠️ Invalid message format: {msg}" s1, [])
  | some data =>
    match tryBody s1 data with
    | some r => r
    | none => (log s!"⚠️ Invalid message format: {msg}" s1, [])

/-- The `client.on('error')` callback (lines 91-93). -/
def onError (errMessage : String) (s : AppState) : AppState :=
  log s!"❌ MQTT Error: {errMessage}" s

/-- The `client.on('close')` callback (lines 95-98): clears `connected` and
logs a disconnect line with the captured broker URL. -/
def onClose (c : MqttClient) (s : AppState) : AppState :=
  let url := c.brokerUrl
  log s!"🔌 Disconnected from {url}" { s with connected := false }

/-- All transport callbacks, as one event type (for the append-only log
invariant).  `message` carries the raw payload text and its parse result. -/
inductive TransportEvent where
  | connected
  | subscribeResult (err : Option String)
  | message (topic payload : String) (parsed : Option Json)
  | mqttError (errMessage : String)
  | closed

/-- Dispatch of a transport event to the corresponding registered callback of
the client `c`. -/
def handleTransportEvent (c : MqttClient) (e : TransportEvent) (s : AppState) :
    AppState × List Effect :=
  match e with
  | .connected => onConnect c s
  | .subscribeResult err => (onSubscribeResult c err s, [])
  | .message t m parsed => handleIncomingMessage t m parsed s
  | .mqttError m => (onError m s, [])
  | .closed => (onClose c s, [])

/-- Source function `resetConnection` (lines 101-110): ends the client when one exists, then
unconditionally clears `connected` and the log, empties `ip`, and sets `topic`
to the fixed string `'mqtt/status'`. -/
def resetConnection (s : AppState) : AppState × List Effect :=
  let fx : List Effect :=
    match s.clientRef with
    | some _ => [Effect.endClient]
    | none => []
  ({ s with clientRef := none, connected := false, statusLog := [],
            ip := "", topic := "mqtt/status" }, fx)

/-- The `TextInput` change handler for the host field (line 120). -/
def setIp (v : String) (s : AppState) : AppState := { s with ip := v }

/-- The `TextInput` change handler for the topic field (line 127). -/
def setTopic (v : String) (s : AppState) : AppState := { s with topic := v }

/-- The topics of all subscribe requests among a handler's effects. -/
def subscribedTopics : List Effect → List String
  | [] => []
  | Effect.subscribeRequest t :: rest => t :: subscribedTopics rest
  | _ :: rest => subscribedTopics rest

/-- The bodies of all user-facing alerts (modal alerts and scheduled
notifications) among a handler's effects. -/
def alertBodies : List Effect → List String
  | [] => []
  | Effect.alertModal _ m :: rest => m :: alertBodies rest
  | Effect.scheduleNotification _ b :: rest => b :: alertBodies rest
  | _ :: rest => alertBodies rest

/-- Scenario for the disconnect-then-reconnect property: disconnect, type a
new host and topic, press Connect, then receive the transport's connect
acknowledgement and a successful subscribe result.  Returns the final state
and all effects emitted along the way. -/
def disconnectThenConnect (s : AppState) (newIp newTopic : String) :
    AppState × List Effect :=
  let r1 := resetConnection s
  let s2 := setTopic newTopic (setIp newIp r1.1)
  let r2 := connectToMQTT s2
  match r2.1.clientRef with
  | some c =>
    let r3 := handleTransportEvent c TransportEvent.connected r2.1
    let r4 := handleTransportEvent c (TransportEvent.subscribeResult none) r3.1
    (r4.1, r1.2 ++ r2.2 ++ r3.2 ++ r4.2)
  | none => (r2.1, r1.2 ++ r2.2)

/-- The log history produced by a fresh connect with host `newIp` and topic
`newTopic` (a function of the new configuration only). -/
def freshConnectLog (newIp newTopic : String) : List String :=
  let url := brokerUrlFor newIp
  [s!"✅ Connected to {url}", s!"📡 Subscribed to \"{newTopic}\""]

/-- Appending: `log` appends exactly one entry at the end of the history. -/
@[simp] theorem log_statusLog (message : String) (s : AppState) :
    (log message s).statusLog = s.statusLog ++ [message] := rfl

/-- Projection: `log` does not touch the notification-permission flag. -/
@[simp] theorem log_permissionGranted (message : String) (s : AppState) :
    (log message s).permissionGranted = s.permissionGranted := rfl

/-- Unfolding: `toString` on a string is the string itself. -/
@[simp] theorem toString_string (x : String) : toString x = x := rfl

/-- Characterization of the message handler on a parsed object whose `status`
field is the string `"offline"`: the raw message and the offline line are
logged, and `sendLocalNotification` is called with the offline body built
from the resolved station id. -/
theorem handleIncomingMessage_offline (t m : String)
    (fields : List (String × Json)) (s : AppState) (sid : String)
    (h1 : fields.lookup "status" = some (Json.str "offline"))
    (h2 : resolveStationId (fields.lookup "stationId") = sid) :
    handleIncomingMessage t m (some (Json.obj fields)) s =
      (log s!"🚨 \"{sid}\" is offline" (log s!"📩 {t}: {m}" s),
       sendLocalNotification (log s!"📩 {t}: {m}" s)
         s!"Device \"{sid}\" is offline") := by
  subst h2
  simp [handleIncomingMessage, tryBody, Json.getProp, h1]

/-- C1 counterexample: for the unparseable payload `"not json"` arriving on
topic `"status"` in the initial state, the handler produces two log entries
(the raw-message entry and the invalid-format entry), not exactly one, and
zero alerts. -/
theorem c1_counterexample :
    (handleIncomingMessage "status" "not json" none initialState).1.statusLog.length = 2 ∧
    ¬ (handleIncomingMessage "status" "not json" none initialState).1.statusLog.length = 1 ∧
    (handleIncomingMessage "status" "not json" none initialState).2 = [] := by
  decide

/-- C1 (amended): for every payload whose text fails JSON parsing, the
message handler appends exactly two log entries — the unconditional
raw-message entry and the invalid-format entry — and emits zero alerts. -/
theorem c1_malformed_two_log_entries_no_alerts (t m : String) (s : AppState) :
    (handleIncomingMessage t m none s).1.statusLog =
      s.statusLog ++ [s!"📩 {t}: {m}", s!"⚠️ Invalid message format: {m}"] ∧
    (handleIncomingMessage t m none s).2 = [] := by
  simp [handleIncomingMessage]

/-- C2 counterexample: for a valid offline payload with station `"Pump-3"`,
received with notification permission granted, the emitted alert's title is
`"🚨 Device Offline"`, which is not the string `"Device Offline"`. -/
theorem c2_counterexample :
    (handleIncomingMessage "status" "p"
        (some (Json.obj [("status", Json.str "offline"),
                         ("stationId", Json.str "Pump-3")]))
        { initialState with permissionGranted := true }).2 =
      [Effect.scheduleNotification "🚨 Device Offline"
        "Device \"Pump-3\" is offline"] ∧
    ("🚨 Device Offline" : String) ≠ "Device Offline" := by
  decide

/-- C2 (amended): for every valid JSON object payload with `status` equal to
`"offline"` and a nonempty string `stationId`, the handler emits exactly one
alert whose body is `Device "{stationId}" is offline` — a scheduled
notification titled `"🚨 Device Offline"` when notification permission is
granted, otherwise a modal alert titled `"Notification"` — followed by a
corresponding log entry. -/
theorem c2_offline_alert_and_log (t m sid : String)
    (fields : List (String × Json)) (s : AppState)
    (h1 : fields.lookup "status" = some (Json.str "offline"))
    (h2 : fields.lookup "stationId" = some (Json.str sid))
    (h3 : sid ≠ "") :
    (handleIncomingMessage t m (some (Json.obj fields)) s).2 =
      (if s.permissionGranted then
        [Effect.scheduleNotification "🚨 Device Offline"
          s!"Device \"{sid}\" is offline"]
      else
        [Effect.alertModal "Notification" s!"Device \"{sid}\" is offline"]) ∧
    (handleIncomingMessage t m (some (Json.obj fields)) s).2.length = 1 ∧
    alertBodies (handleIncomingMessage t m (some (Json.obj fields)) s).2 =
      [s!"Device \"{sid}\" is offline"] ∧
    (handleIncomingMessage t m (some (Json.obj fields)) s).1.statusLog =
      s.statusLog ++ [s!"📩 {t}: {m}", s!"🚨 \"{sid}\" is offline"] := by
  have hsid : resolveStationId (fields.lookup "stationId") = sid := by
    simp [h2, resolveStationId, Json.truthy, Json.toJSString, h3]
  have h := handleIncomingMessage_offline t m fields s sid h1 hsid
  rw [h]
  by_cases hp : s.permissionGranted <;>
    simp [sendLocalNotification, alertBodies, log, hp]

/-- C2 witness: the amended statement at the concrete offline payload with
station `"Pump-3"`, evaluated in the initial state. -/
theorem c2_offline_alert_and_log_witness :
    alertBodies (handleIncomingMessage "status" "p"
        (some (Json.obj [("status", Json.str "offline"),
                         ("stationId", Json.str "Pump-3")]))
        initialState).2 = ["Device \"Pump-3\" is offline"] := by
  have h := c2_offline_alert_and_log "status" "p" "Pump-3"
      [("status", Json.str "offline"), ("stationId", Json.str "Pump-3")]
      initialState rfl rfl (by decide)
  exact h.2.2.1.trans (by decide)

/-- C3 counterexample: a payload whose `stationId` field is present and is a
string — the empty string — is nevertheless defaulted to
`"Unknown Station"` rather than used unchanged. -/
theorem c3_counterexample :
    alertBodies (handleIncomingMessage "t" "p"
        (some (Json.obj [("status", Json.str "offline"),
                         ("stationId", Json.str "")]))
        initialState).2 = ["Device \"Unknown Station\" is offline"] ∧
    ("Device \"Unknown Station\" is offline" : String) ≠
      "Device \"\" is offline" := by
  decide

/-- C3 (amended): in the offline branch, the station id is defaulted to
`"Unknown Station"` exactly when the payload's `stationId` field is absent or
its value is falsy under JavaScript truthiness (`null`, `false`, `0`, or the
empty string); any truthy value — string or not — is used, converted to its
JavaScript string form. -/
theorem c3_station_default_iff_falsy (t m : String)
    (fields : List (String × Json)) (s : AppState)
    (h1 : fields.lookup "status" = some (Json.str "offline")) :
    ((fields.lookup "stationId" = none ∨
      ∃ v, fields.lookup "stationId" = some v ∧ v.truthy = false) →
      alertBodies (handleIncomingMessage t m (some (Json.obj fields)) s).2 =
        ["Device \"Unknown Station\" is offline"]) ∧
    (∀ v, fields.lookup "stationId" = some v → v.truthy = true →
      alertBodies (handleIncomingMessage t m (some (Json.obj fields)) s).2 =
        ["Device \"" ++ v.toJSString ++ "\" is offline"]) := by
  constructor
  · intro hfalsy
    have hsid : resolveStationId (fields.lookup "stationId") =
        "Unknown Station" := by
      rcases hfalsy with h | ⟨v, hv, hvf⟩
      · simp [h, resolveStationId]
      · simp [hv, resolveStationId, hvf]
    rw [handleIncomingMessage_offline t m fields s "Unknown Station" h1 hsid]
    by_cases hp : s.permissionGranted <;>
      simp [sendLocalNotification, alertBodies, hp]
  · intro v hv hvt
    have hsid : resolveStationId (fields.lookup "stationId") =
        v.toJSString := by
      simp [hv, resolveStationId, hvt]
    rw [handleIncomingMessage_offline t m fields s v.toJSString h1 hsid]
    by_cases hp : s.permissionGranted <;>
      simp [sendLocalNotification, alertBodies, hp]

/-- C3 witness: the amended statement at a payload whose `stationId` is the
truthy non-string number `7`: the body uses `"7"`, not the default. -/
theorem c3_station_default_iff_falsy_witness :
    alertBodies (handleIncomingMessage "t" "p"
        (some (Json.obj [("status", Json.str "offline"),
                         ("stationId", Json.num 7)]))
        initialState).2 = ["Device \"7\" is offline"] := by
  have h := (c3_station_default_iff_falsy "t" "p"
      [("status", Json.str "offline"), ("stationId", Json.num 7)]
      initialState rfl).2 (Json.num 7) rfl rfl
  exact h.trans (by decide)

/-- C4: a parsed payload whose `status` property is anything other than the
string `"offline"` — absent, a non-string value, or a payload that is not an
object at all — makes the handler emit zero alerts (no effects). -/
theorem c4_non_offline_no_alerts (t m : String) (data : Json) (s : AppState)
    (h : ∀ sv, data.getProp "status" = some (some (Json.str sv)) →
      sv ≠ "offline") :
    (handleIncomingMessage t m (some data) s).2 = [] := by
  unfold handleIncomingMessage tryBody
  cases hg : data.getProp "status" with
  | none => simp [hg]
  | some statusVal =>
    cases statusVal with
    | none => simp [hg]
    | some v =>
      cases v with
      | null => simp [hg]
      | bool b => simp [hg]
      | num n => simp [hg]
      | str sv =>
        have hne : sv ≠ "offline" := h sv hg
        simp [hg, hne]
      | arr elems => simp [hg]
      | obj fields => simp [hg]

/-- C4 witness: the statement at the concrete payload
`{"status": "online"}` in the initial state. -/
theorem c4_non_offline_no_alerts_witness :
    (handleIncomingMessage "status" "p"
        (some (Json.obj [("status", Json.str "online")]))
        initialState).2 = [] := by
  refine c4_non_offline_no_alerts "status" "p" _ initialState ?_
  intro sv hsv
  simp [Json.getProp, List.lookup] at hsv
  subst hsv
  decide

/-- C5 counterexample: the initial state has no transport handle, yet
`resetConnection` does not leave it unchanged (the topic becomes
`"mqtt/status"`). -/
theorem c5_counterexample :
    initialState.clientRef = none ∧
    (resetConnection initialState).1 ≠ initialState := by
  decide

/-- C5 (amended): calling disconnect on an already-disconnected monitor (no
transport handle) issues no transport teardown and leaves the state
disconnected, but it is not a no-op: it unconditionally clears the log
history and the host and sets the topic to the fixed string
`"mqtt/status"`. -/
theorem c5_disconnect_on_disconnected (s : AppState) (h : s.clientRef = none) :
    resetConnection s =
      ({ s with connected := false, statusLog := [], ip := "",
                topic := "mqtt/status", clientRef := none }, []) := by
  simp [resetConnection, h]

/-- C5 witness: the amended statement evaluated at the initial state. -/
theorem c5_disconnect_on_disconnected_witness :
    resetConnection initialState =
      ({ initialState with connected := false, statusLog := [], ip := "",
                           topic := "mqtt/status", clientRef := none }, []) :=
  c5_disconnect_on_disconnected initialState rfl

/-- C6: with an empty host or topic, pressing Connect only raises the
configuration-error modal: the state is unchanged and no transport
connection is initiated. -/
theorem c6_missing_config_blocks_connect (s : AppState)
    (h : s.ip = "" ∨ s.topic = "") :
    connectToMQTT s =
      (s, [Effect.alertModal "Error" "Please enter both IP address and topic"]) ∧
    ∀ u, Effect.transportConnect u ∉ (connectToMQTT s).2 := by
  rcases h with h | h <;> simp [connectToMQTT, h]

/-- C6 witness: the statement evaluated at the initial state (empty host). -/
theorem c6_missing_config_blocks_connect_witness :
    connectToMQTT initialState =
      (initialState,
       [Effect.alertModal "Error" "Please enter both IP address and topic"]) :=
  (c6_missing_config_blocks_connect initialState (Or.inl rfl)).1

/-- C7: after a disconnect followed by a connect with a new (nonempty) host
and topic, acknowledged by the transport and subscribed successfully, the log
history is a function of the new configuration only (no entry from before the
disconnect survives), and the only subscribe request issued is for the new
topic — in particular never for the old topic when it differs. -/
theorem c7_reconnect_fresh_log_new_topic (s : AppState)
    (newIp newTopic : String) (h1 : newIp ≠ "") (h2 : newTopic ≠ "") :
    (disconnectThenConnect s newIp newTopic).1.statusLog =
      freshConnectLog newIp newTopic ∧
    subscribedTopics (disconnectThenConnect s newIp newTopic).2 = [newTopic] ∧
    (s.topic ≠ newTopic →
      s.topic ∉ subscribedTopics (disconnectThenConnect s newIp newTopic).2) := by
  have hsub : subscribedTopics (disconnectThenConnect s newIp newTopic).2 =
      [newTopic] := by
    cases hc : s.clientRef <;>
      simp [disconnectThenConnect, resetConnection, setIp, setTopic,
            connectToMQTT, handleTransportEvent, onConnect, onSubscribeResult,
            subscribedTopics, hc, h1, h2]
  have hlog : (disconnectThenConnect s newIp newTopic).1.statusLog =
      freshConnectLog newIp newTopic := by
    cases hc : s.clientRef <;>
      simp [disconnectThenConnect, resetConnection, setIp, setTopic,
            connectToMQTT, handleTransportEvent, onConnect, onSubscribeResult,
            freshConnectLog, brokerUrlFor, log, hc, h1, h2]
  refine ⟨hlog, hsub, fun hne => ?_⟩
  rw [hsub]
  simp [hne]

/-- C7 witness: from a state with old topic `"status"`, a stale log and a live
client, reconnecting with host `"10.0.0.5"` and topic `"alerts"` subscribes
exactly to `"alerts"`. -/
theorem c7_reconnect_fresh_log_new_topic_witness :
    subscribedTopics (disconnectThenConnect
      { initialState with statusLog := ["old entry"],
                          clientRef := some { brokerUrl := "u", topic := "status" } }
      "10.0.0.5" "alerts").2 = ["alerts"] :=
  (c7_reconnect_fresh_log_new_topic
    { initialState with statusLog := ["old entry"],
                        clientRef := some { brokerUrl := "u", topic := "status" } }
    "10.0.0.5" "alerts" (by decide) (by decide)).2.1

/-- The `try` block never removes log entries: a non-throwing run leaves the
history unchanged or appends exactly one entry. -/
theorem tryBody_statusLog (s : AppState) (data : Json)
    (r : AppState × List Effect) (h : tryBody s data = some r) :
    r.1.statusLog = s.statusLog ∨
      ∃ e, r.1.statusLog = s.statusLog ++ [e] := by
  cases hg : data.getProp "status" with
  | none => simp [tryBody, hg] at h
  | some statusVal =>
    cases statusVal with
    | none => simp [tryBody, hg] at h; left; rw [← h]
    | some v =>
      cases v with
      | null => simp [tryBody, hg] at h; left; rw [← h]
      | bool b => simp [tryBody, hg] at h; left; rw [← h]
      | num n => simp [tryBody, hg] at h; left; rw [← h]
      | arr elems => simp [tryBody, hg] at h; left; rw [← h]
      | obj fields => simp [tryBody, hg] at h; left; rw [← h]
      | str sv =>
        by_cases hsv : sv = "offline"
        · subst hsv
          cases hst : data.getProp "stationId" with
          | none => simp [tryBody, hg, hst] at h
          | some stationVal =>
            simp [tryBody, hg, hst] at h
            right
            refine ⟨"🚨 \"" ++ resolveStationId stationVal ++ "\" is offline", ?_⟩
            rw [← h]
            simp
        · simp [tryBody, hg, hsv] at h; left; rw [← h]

/-- The message handler only appends to the log history. -/
theorem handleIncomingMessage_statusLog (t m : String) (p : Option Json)
    (s : AppState) :
    ∃ tail, (handleIncomingMessage t m p s).1.statusLog =
      s.statusLog ++ tail := by
  cases p with
  | none =>
    exact ⟨[s!"📩 {t}: {m}", s!"⚠️ Invalid message format: {m}"],
      by simp [handleIncomingMessage]⟩
  | some data =>
    cases htb : tryBody (log ("📩 " ++ t ++ ": " ++ m) s) data with
    | none =>
      refine ⟨["📩 " ++ t ++ ": " ++ m, "⚠️ Invalid message format: " ++ m], ?_⟩
      simp [handleIncomingMessage, htb]
    | some r =>
      rcases tryBody_statusLog _ data r htb with hk | ⟨e, he⟩
      · refine ⟨["📩 " ++ t ++ ": " ++ m], ?_⟩
        simp [handleIncomingMessage, htb, hk]
      · refine ⟨["📩 " ++ t ++ ": " ++ m, e], ?_⟩
        simp [handleIncomingMessage, htb, he]

/-- C8: every transport callback (connect acknowledgement, subscribe result,
message, error, close) only appends entries at the end of the log history —
existing entries are never reordered or removed — while pressing Connect and
editing the input fields leave the history untouched, and only
`resetConnection` (disconnect) clears it. -/
theorem c8_log_append_only :
    (∀ c e s, ∃ tail,
      (handleTransportEvent c e s).1.statusLog = s.statusLog ++ tail) ∧
    (∀ s, (connectToMQTT s).1.statusLog = s.statusLog) ∧
    (∀ v s, (setIp v s).statusLog = s.statusLog) ∧
    (∀ v s, (setTopic v s).statusLog = s.statusLog) ∧
    (∀ s, (resetConnection s).1.statusLog = []) := by
  refine ⟨fun c e s => ?_, fun s => ?_, fun v s => rfl, fun v s => rfl,
    fun s => rfl⟩
  · cases e with
    | connected =>
      exact ⟨[s!"✅ Connected to {c.brokerUrl}"],
        by simp [handleTransportEvent, onConnect]⟩
    | subscribeResult err =>
      cases err with
      | none =>
        exact ⟨[s!"📡 Subscribed to \"{c.topic}\""],
          by simp [handleTransportEvent, onSubscribeResult]⟩
      | some errMessage =>
        exact ⟨[s!"❌ Subscription failed: {errMessage}"],
          by simp [handleTransportEvent, onSubscribeResult]⟩
    | message t m parsed => exact handleIncomingMessage_statusLog t m parsed s
    | mqttError errMessage =>
      exact ⟨[s!"❌ MQTT Error: {errMessage}"],
        by simp [handleTransportEvent, onError]⟩
    | closed =>
      exact ⟨[s!"🔌 Disconnected from {c.brokerUrl}"],
        by simp [handleTransportEvent, onClose]⟩
  · unfold connectToMQTT
    split <;> rfl

/-- C9: the payload text `"null"` parses to the JSON value `null`; accessing
its `status` property throws, the exception is caught, and the handler logs
the invalid-format entry and emits zero alerts. -/
theorem c9_null_payload_invalid_format (t m : String) (s : AppState)
    (h : m = "null") :
    (handleIncomingMessage t m (some Json.null) s).1.statusLog =
      s.statusLog ++ [s!"📩 {t}: {m}", s!"⚠️ Invalid message format: {m}"] ∧
    (handleIncomingMessage t m (some Json.null) s).2 = [] := by
  subst h
  simp [handleIncomingMessage, tryBody, Json.getProp]

/-- C9 witness: the concrete payload text `"null"` on topic `"status"` in the
initial state yields the raw-message and invalid-format log entries and no
effects. -/
theorem c9_null_payload_invalid_format_witness :
    (handleIncomingMessage "status" "null" (some Json.null) initialState).1.statusLog =
      ["📩 status: null", "⚠️ Invalid message format: null"] ∧
    (handleIncomingMessage "status" "null" (some Json.null) initialState).2 = [] := by
  have h := c9_null_payload_invalid_format "status" "null" initialState rfl
  exact ⟨h.1.trans (by decide), h.2⟩

/-- C10: every disconnect sets the topic to the fixed string `"mqtt/status"`,
which differs from the initial default topic `"status"`; in particular
disconnect does not restore the initial configuration. -/
theorem c10_disconnect_topic_differs_from_initial :
    (∀ s, (resetConnection s).1.topic = "mqtt/status") ∧
    initialState.topic = "status" ∧
    (resetConnection initialState).1 ≠ initialState :=
  ⟨fun _ => rfl, rfl, by decide⟩
